import Mathlib

/-!
Verification of the scoring / suggestion / preprocessing / ML-guard core of the
Fake Productivity Detector backend.

Numeric values are modelled as exact rationals (`ℚ`).  Python's built-in
`round(x, 2)` (round-half-to-even at two decimal places) is modelled by
`round2`.  DataFrames are modelled as association lists of named columns whose
cells are `Option ℚ` (`none` = missing / NaN).  External-library computations
(scikit-learn model fitting and the fitted `StandardScaler` transform) are
abstracted as opaque function parameters; all control flow, guard logic and
arithmetic of the repository code itself is translated directly.
-/

/-- Python `round` to the nearest integer, ties to even (banker's rounding). -/
def roundHalfEven (x : ℚ) : ℤ :=
  if x - ⌊x⌋ < 1/2 then ⌊x⌋
  else if 1/2 < x - ⌊x⌋ then ⌊x⌋ + 1
  else if Even ⌊x⌋ then ⌊x⌋ else ⌊x⌋ + 1

/-- Python `round(x, 2)`: round to two decimal places, ties to even. -/
def round2 (x : ℚ) : ℚ := (roundHalfEven (x * 100) : ℚ) / 100

namespace ScoringConfig

/-- Constant from `config.py` line 101. -/
def TASK_WEIGHT : ℚ := 8

/-- Constant from `config.py` line 102. -/
def IDLE_WEIGHT : ℚ := 6

/-- Constant from `config.py` line 103. -/
def SOCIAL_MEDIA_WEIGHT : ℚ := 7

/-- Constant from `config.py` line 104. -/
def BREAK_WEIGHT : ℚ := 2

/-- Constant from `config.py` line 105. -/
def TASKS_COMPLETED_WEIGHT : ℚ := 5

/-- Constant from `config.py` line 107. -/
def MIN_SCORE : ℚ := 0

/-- Constant from `config.py` line 108. -/
def MAX_SCORE : ℚ := 100

/-- Constant from `config.py` line 111. -/
def HIGHLY_PRODUCTIVE_MIN : ℚ := 80

/-- Constant from `config.py` line 112. -/
def MODERATELY_PRODUCTIVE_MIN : ℚ := 50

end ScoringConfig

namespace ProductivityCategory

/-- Label from `config.py` line 119. -/
def HIGHLY_PRODUCTIVE : String := "Highly Productive"

/-- Label from `config.py` line 120. -/
def MODERATELY_PRODUCTIVE : String := "Moderately Productive"

/-- Label from `config.py` line 121. -/
def FAKE_PRODUCTIVITY : String := "Fake Productivity"

end ProductivityCategory

/-- Dataclass `ScoringResult` from `scoring.py`.  The `breakdown` dict is an
association list in Python insertion order. -/
structure ScoringResult where
  score : ℚ
  category : String
  breakdown : List (String × ℚ)
  raw_score : ℚ
deriving Repr

/-- Method `ProductivityScorer._normalize_score` from `scoring.py`. -/
def normalize_score (raw_score : ℚ) : ℚ :=
  max ScoringConfig.MIN_SCORE (min ScoringConfig.MAX_SCORE raw_score)

/-- Method `ProductivityScorer._classify_category` from `scoring.py`. -/
def classify_category (score : ℚ) : String :=
  if score ≥ ScoringConfig.HIGHLY_PRODUCTIVE_MIN then
    ProductivityCategory.HIGHLY_PRODUCTIVE
  else if score ≥ ScoringConfig.MODERATELY_PRODUCTIVE_MIN then
    ProductivityCategory.MODERATELY_PRODUCTIVE
  else
    ProductivityCategory.FAKE_PRODUCTIVITY

/-- Method `ProductivityScorer.calculate_score` from `scoring.py`. -/
def calculate_score (task_hours idle_hours social_media_hours
    break_frequency tasks_completed : ℚ) : ScoringResult :=
  let task_contribution := task_hours * ScoringConfig.TASK_WEIGHT
  let tasks_completed_contribution :=
    tasks_completed * ScoringConfig.TASKS_COMPLETED_WEIGHT
  let idle_penalty := idle_hours * ScoringConfig.IDLE_WEIGHT
  let social_media_penalty := social_media_hours * ScoringConfig.SOCIAL_MEDIA_WEIGHT
  let break_penalty := break_frequency * ScoringConfig.BREAK_WEIGHT
  let raw_score :=
    task_contribution
    + tasks_completed_contribution
    - idle_penalty
    - social_media_penalty
    - break_penalty
  let normalized_score := normalize_score raw_score
  let category := classify_category normalized_score
  let breakdown :=
    [("productive", round2 task_hours),
     ("idle", round2 idle_hours),
     ("social", round2 social_media_hours),
     ("breaks", round2 (break_frequency / 2)),
     ("task_contribution", round2 task_contribution),
     ("tasks_completed_contribution", round2 tasks_completed_contribution),
     ("idle_penalty", round2 (-idle_penalty)),
     ("social_media_penalty", round2 (-social_media_penalty)),
     ("break_penalty", round2 (-break_penalty))]
  { score := round2 normalized_score
    category := category
    breakdown := breakdown
    raw_score := round2 raw_score }

/-- Dataclass `SuggestionRule` from `suggestions.py`. -/
structure SuggestionRule where
  condition : String
  threshold : ℚ
  comparison : String
  suggestion : String
  priority : ℤ
  category : String
deriving Repr

/-- Method `SuggestionEngine._create_rules` from `suggestions.py`: the static ordered rule
set, in declaration order. -/
def create_rules : List SuggestionRule :=
  [{ condition := "idle_hours", threshold := 2.0, comparison := "gt",
     suggestion := "Your idle time is quite high. Try using focus techniques like the Pomodoro method to maintain consistent productivity throughout the day.",
     priority := 1, category := "focus" },
   { condition := "idle_hours", threshold := 1.0, comparison := "gt",
     suggestion := "Consider minimizing idle time with better task planning. Break large tasks into smaller, manageable chunks.",
     priority := 2, category := "focus" },
   { condition := "social_media_usage", threshold := 3.0, comparison := "gt",
     suggestion := "Your social media usage is significantly impacting productivity. Consider using app blockers like Freedom, Cold Turkey, or built-in screen time limits.",
     priority := 1, category := "distraction" },
   { condition := "social_media_usage", threshold := 2.0, comparison := "gt",
     suggestion := "Reduce social media usage to improve focus. Try scheduling specific times for social media instead of checking continuously.",
     priority := 2, category := "distraction" },
   { condition := "social_media_usage", threshold := 1.5, comparison := "gt",
     suggestion := "Consider using website blockers during work hours to minimize social media distractions.",
     priority := 3, category := "distraction" },
   { condition := "break_frequency", threshold := 10, comparison := "gt",
     suggestion := "Too many breaks can disrupt your workflow. Try the Pomodoro technique: 25 minutes work, 5 minutes break.",
     priority := 1, category := "breaks" },
   { condition := "break_frequency", threshold := 8, comparison := "gt",
     suggestion := "Consolidate your breaks to maintain workflow momentum. Longer, less frequent breaks are more effective than many short ones.",
     priority := 2, category := "breaks" },
   { condition := "break_frequency", threshold := 2, comparison := "lt",
     suggestion := "Taking regular breaks actually improves productivity. Consider adding short breaks every 45-60 minutes.",
     priority := 3, category := "breaks" },
   { condition := "task_hours", threshold := 4.0, comparison := "lt",
     suggestion := "Increase focused work hours for better productivity. Start with time-blocking specific tasks in your calendar.",
     priority := 2, category := "focus" },
   { condition := "task_hours", threshold := 2.0, comparison := "lt",
     suggestion := "Your productive hours are very low. Try identifying your peak productivity hours and scheduling important tasks during those times.",
     priority := 1, category := "focus" },
   { condition := "tasks_completed", threshold := 3, comparison := "lt",
     suggestion := "Set clear, achievable task goals for each day. Try breaking larger projects into smaller, completable tasks.",
     priority := 2, category := "planning" },
   { condition := "tasks_completed", threshold := 5, comparison := "lt",
     suggestion := "Consider using a task management system like Todoist, Trello, or simple to-do lists to track and complete more tasks.",
     priority := 3, category := "planning" },
   { condition := "efficiency_ratio", threshold := 0.5, comparison := "lt",
     suggestion := "You\x27re spending time on tasks but completion rate is low. Focus on finishing tasks before starting new ones.",
     priority := 2, category := "efficiency" },
   { condition := "score", threshold := 80, comparison := "gte",
     suggestion := "Excellent work! Maintain your current productivity habits. Consider sharing your strategies with peers.",
     priority := 5, category := "positive" },
   { condition := "score", threshold := 90, comparison := "gte",
     suggestion := "Outstanding productivity! You\x27re in the top tier. Keep up the great work!",
     priority := 5, category := "positive" }]

/-- Derived efficiency ratio from `suggestions.py` line 221:
`tasks_completed / max(task_hours, 1) if task_hours > 0 else 0`. -/
def efficiency_ratio_of (task_hours tasks_completed : ℚ) : ℚ :=
  if task_hours > 0 then tasks_completed / max task_hours 1 else 0

/-- Metrics dict passed to rule checks, `suggestions.py` lines 224-232. -/
def metricsMap (task_hours idle_hours social_media_usage break_frequency
    tasks_completed eff score : ℚ) : String → Option ℚ := fun key =>
  if key = "idle_hours" then some idle_hours
  else if key = "social_media_usage" then some social_media_usage
  else if key = "break_frequency" then some break_frequency
  else if key = "task_hours" then some task_hours
  else if key = "tasks_completed" then some tasks_completed
  else if key = "efficiency_ratio" then some eff
  else if key = "score" then some score
  else none

/-- Method `SuggestionEngine._check_rule` from `suggestions.py`. -/
def check_rule (rule : SuggestionRule) (metrics : String → Option ℚ) : Bool :=
  match metrics rule.condition with
  | none => false
  | some value =>
    if rule.comparison = "gt" then decide (value > rule.threshold)
    else if rule.comparison = "lt" then decide (value < rule.threshold)
    else if rule.comparison = "gte" then decide (value ≥ rule.threshold)
    else if rule.comparison = "lte" then decide (value ≤ rule.threshold)
    else if rule.comparison = "eq" then decide (value = rule.threshold)
    else false

/-- Comparison used by `triggered_suggestions.sort(key=lambda x: x[0])`:
ascending priority on `(priority, category, suggestion)` triples. -/
def prioLE (a b : ℤ × String × String) : Prop := a.1 ≤ b.1

instance : DecidableRel prioLE := fun a b => inferInstanceAs (Decidable (a.1 ≤ b.1))

instance : IsTotal (ℤ × String × String) prioLE := ⟨fun a b => le_total a.1 b.1⟩

instance : IsTrans (ℤ × String × String) prioLE := ⟨fun _ _ _ h1 h2 => le_trans h1 h2⟩

/-- Triples `(priority, category, suggestion)` collected in `suggestions.py` lines 234-238:
triples of the rules that fire, in rule-declaration order. -/
def triggered_suggestions (task_hours idle_hours social_media_usage
    break_frequency tasks_completed score : ℚ) : List (ℤ × String × String) :=
  (create_rules.filter (fun rule => check_rule rule
    (metricsMap task_hours idle_hours social_media_usage break_frequency
      tasks_completed
      ( efficiency_ratio_of task_hours tasks_completed) score))).map
    (fun rule => (rule.priority, rule.category, rule.suggestion))

/-- Sorting step of `suggestions.py` line 241, the stable `list.sort(key=lambda x: x[0])`,
modelled by insertion sort on the priority (a stable sort). -/
def sorted_triggered (task_hours idle_hours social_media_usage
    break_frequency tasks_completed score : ℚ) : List (ℤ × String × String) :=
  List.insertionSort prioLE (triggered_suggestions task_hours idle_hours
    social_media_usage break_frequency tasks_completed score)

/-- Deduplication loop of `suggestions.py` lines 244-250: drop repeated categories (first occurrence
wins), except the "positive" category which is exempt from deduplication. -/
def dedupAux : List (ℤ × String × String) → List String → List (ℤ × String × String)
  | [], _ => []
  | x :: rest, seen =>
    if x.2.1 ∉ seen ∨ x.2.1 = "positive" then
      x :: dedupAux rest (x.2.1 :: seen)
    else
      dedupAux rest seen

/-- Method `SuggestionEngine._get_default_suggestions` from `suggestions.py`. -/
def default_suggestions (score : ℚ) : List String :=
  if score ≥ 80 then
    ["Excellent work! Maintain your current productivity habits.",
     "Consider mentoring others with your productivity strategies.",
     "Challenge yourself with more ambitious goals."]
  else if score ≥ 50 then
    ["Good progress! Focus on consistency to improve further.",
     "Try identifying your peak productivity hours.",
     "Set specific goals for each work session."]
  else
    ["Start with small improvements - even 10% better is progress.",
     "Identify your biggest time wasters and address them first.",
     "Consider using productivity apps to track your time.",
     "Set realistic daily goals and celebrate small wins."]

/-- Method `SuggestionEngine.generate_suggestions` from `suggestions.py`. -/
def generate_suggestions (task_hours idle_hours social_media_usage
    break_frequency tasks_completed score : ℚ) (max_suggestions : ℕ) : List String :=
  let unique := (dedupAux (sorted_triggered task_hours idle_hours
    social_media_usage break_frequency tasks_completed score) []).map
    (fun x => x.2.2)
  let final := if unique.isEmpty then default_suggestions score else unique
  final.take max_suggestions

/-- A pandas DataFrame, modelled as an association list of named columns whose
cells are `Option ℚ` (`none` models a missing value / NaN). -/
abbrev DataFrame := List (String × List (Option ℚ))

/-- Constant `DataPreprocessor.FEATURE_COLUMNS` from `preprocessing.py`. -/
def FEATURE_COLUMNS : List String :=
  ["task_hours", "idle_hours", "social_media_usage", "break_frequency",
   "tasks_completed"]

/-- Column names of a DataFrame (`df.columns`). -/
def colNames (df : DataFrame) : List String := df.map Prod.fst

/-- Column access `df[name]` (first matching column; empty if absent). -/
def colValues (df : DataFrame) (name : String) : List (Option ℚ) :=
  match df.find? (fun col => col.1 == name) with
  | some col => col.2
  | none => []

/-- Transpose of equal-length columns into rows, structural on the first
column. -/
def transposeAux : List (Option ℚ) → List (List (Option ℚ)) →
    List (List (Option ℚ))
  | [], _ => []
  | x :: xs, rest =>
    (x :: rest.map (fun col => col.headD none)) ::
      transposeAux xs (rest.map List.tail)

/-- Row-major matrix `df[cols].values`: the selected columns transposed into
rows. -/
def selectRows (df : DataFrame) (cols : List String) : List (List (Option ℚ)) :=
  match cols.map (fun c => colValues df c) with
  | [] => []
  | first :: rest => transposeAux first rest

/-- Mean of the non-missing entries of a column (pandas `Series.mean`, which
skips NaN; `none` when every entry is missing). -/
def colMean (vals : List (Option ℚ)) : Option ℚ :=
  let xs := vals.filterMap id
  if xs.length = 0 then none else some (xs.sum / (xs.length : ℚ))

/-- Median of the non-missing entries of a column (pandas `Series.median`,
which skips NaN and interpolates the two middle values for even counts). -/
def colMedian (vals : List (Option ℚ)) : Option ℚ :=
  let xs := List.insertionSort (· ≤ ·) (vals.filterMap id)
  if xs.length = 0 then none
  else if xs.length % 2 = 1 then some (xs.getD (xs.length / 2) 0)
  else some ((xs.getD (xs.length / 2 - 1) 0 + xs.getD (xs.length / 2) 0) / 2)

/-- Column fill `Series.fillna(fill)`: replaces missing entries by the fill
value; filling with NaN (`none`) leaves the column unchanged. -/
def fillna (vals : List (Option ℚ)) : Option ℚ → List (Option ℚ)
  | none => vals
  | some v => vals.map (fun x => some (x.getD v))

/-- Function `DataPreprocessor.handle_missing_values` from `preprocessing.py`
lines 162-192: each feature column containing a missing value is filled with
its mean, median, or zero depending on the strategy string. -/
def handle_missing_values (df : DataFrame) (strategy : String) : DataFrame :=
  df.map (fun col =>
    if col.1 ∈ FEATURE_COLUMNS then
      if col.2.any (fun v => v.isNone) then
        let fill :=
          if strategy = "mean" then colMean col.2
          else if strategy = "median" then colMedian col.2
          else some 0
        (col.1, fillna col.2 fill)
      else col
    else col)

/-- Clip a value to `[lo, hi]` (pandas `Series.clip`). -/
def clipq (lo hi x : ℚ) : ℚ := max lo (min hi x)

/-- Valid ranges from `DataPreprocessor.clip_values` (`preprocessing.py`
lines 207-213). -/
def clip_ranges : List (String × ℚ × ℚ) :=
  [("task_hours", 0, 24), ("idle_hours", 0, 24), ("social_media_usage", 0, 24),
   ("break_frequency", 0, 50), ("tasks_completed", 0, 100)]

/-- Function `DataPreprocessor.clip_values` from `preprocessing.py`: clips
every feature column present to its declared range (missing cells stay
missing, as with pandas `clip`). -/
def clip_values (df : DataFrame) : DataFrame :=
  df.map (fun col =>
    match clip_ranges.find? (fun r => r.1 == col.1) with
    | some r => (col.1, col.2.map (Option.map (fun v => clipq r.2.1 r.2.2 v)))
    | none => col)

/-- Column-name normalization of `clean_data` (`preprocessing.py` line 128):
pandas `.str.lower().str.strip().str.replace(' ', '_')`, modelled on the
character list. -/
def normalizeName (s : String) : String :=
  let cs := s.toList.map Char.toLower
  let cs := ((cs.dropWhile Char.isWhitespace).reverse.dropWhile
    Char.isWhitespace).reverse
  String.mk (cs.map (fun ch => if ch = ' ' then '_' else ch))

/-- Synonym table `column_mapping` from `clean_data` (`preprocessing.py`
lines 131-137), in Python dict insertion order. -/
def column_mapping : List (String × List String) :=
  [("task_hours", ["task_hours", "taskhours", "productive_hours"]),
   ("idle_hours", ["idle_hours", "idlehours", "idle_time"]),
   ("social_media_usage",
     ["social_media_usage", "social_media_hours", "social_media", "socialmedia"]),
   ("break_frequency", ["break_frequency", "breakfrequency", "breaks", "break_count"]),
   ("tasks_completed",
     ["tasks_completed", "taskscompleted", "completed_tasks", "task_count"])]

/-- Inner loop of `clean_data` (`preprocessing.py` lines 139-143): rename the
first listed variation present onto the standard name, only when the standard
name is not already a column, then stop. -/
def renameOnce (cols : List String) (standard : String)
    (variations : List String) : List String :=
  match variations.find? (fun var => cols.contains var && !cols.contains standard) with
  | some var => cols.map (fun c => if c = var then standard else c)
  | none => cols

/-- Column-name resolution of `clean_data`: normalize every name, then apply
the synonym renames canonical-by-canonical in table order. -/
def cleanColumnNames (cols : List String) : List String :=
  column_mapping.foldl (fun cs p => renameOnce cs p.1 p.2) (cols.map normalizeName)

/-- Row transform of a fitted `StandardScaler` (external library), abstracted
as an opaque function on rows. -/
abbrev ScalerFn := List (Option ℚ) → List (Option ℚ)

/-- Abstraction of `StandardScaler.fit`: an environment producing the fitted
row transform from the training matrix. -/
structure ScalerEnv where
  fitScaler : List (List (Option ℚ)) → ScalerFn

/-- State of `DataPreprocessor` relevant to scaling: the `is_fitted` flag and
the current scaler object. -/
structure DataPreprocessor where
  is_fitted : Bool
  scaler : ScalerFn

/-- Function `DataPreprocessor.fit_transform` from `preprocessing.py`
lines 221-253: errors on the first missing canonical feature column; fits and
transforms when `fit` is true; otherwise requires a fitted scaler and applies
it. -/
def fit_transform (env : ScalerEnv) (pre : DataPreprocessor) (df : DataFrame)
    (fit : Bool) : Except String (List (List (Option ℚ)) × DataPreprocessor) :=
  match FEATURE_COLUMNS.find? (fun col => !(colNames df).contains col) with
  | some col => Except.error ("Missing required column: " ++ col)
  | none =>
    let X := selectRows df FEATURE_COLUMNS
    if fit then
      let newScaler := env.fitScaler X
      Except.ok (X.map newScaler, { is_fitted := true, scaler := newScaler })
    else if pre.is_fitted then
      Except.ok (X.map pre.scaler, pre)
    else
      Except.error "Scaler not fitted. Call fit_transform first with fit=True"

/-- Function `DataPreprocessor.prepare_single_input` from `preprocessing.py`
lines 267-304: builds a one-row DataFrame in canonical order, clips it, and
scales it only when a fitted scaler exists. -/
def prepare_single_input (pre : DataPreprocessor) (task_hours idle_hours
    social_media_usage break_frequency tasks_completed : ℚ) :
    List (List (Option ℚ)) :=
  let df : DataFrame :=
    [("task_hours", [some task_hours]),
     ("idle_hours", [some idle_hours]),
     ("social_media_usage", [some social_media_usage]),
     ("break_frequency", [some break_frequency]),
     ("tasks_completed", [some tasks_completed])]
  let df2 := clip_values df
  if pre.is_fitted then (selectRows df2 FEATURE_COLUMNS).map pre.scaler
  else selectRows df2 FEATURE_COLUMNS

/-- An sklearn estimator held by `MLClassifier`, abstracted as its prediction
function and (when the estimator exposes one) its probability function. -/
structure MLModel where
  predictFn : List (List (Option ℚ)) → List String
  predictProbaFn : Option (List (List (Option ℚ)) → List (List ℚ))

/-- Constant `MLClassifier.CATEGORY_CLASSES` from `ml_model.py` lines 49-53. -/
def CATEGORY_CLASSES : List String :=
  [ProductivityCategory.FAKE_PRODUCTIVITY,
   ProductivityCategory.MODERATELY_PRODUCTIVE,
   ProductivityCategory.HIGHLY_PRODUCTIVE]

/-- One-hot probability synthesis from `MLClassifier.predict` (`ml_model.py`
lines 301-305) for estimators without `predict_proba`. -/
def oneHot (pred : String) : List ℚ :=
  let idx := if pred ∈ CATEGORY_CLASSES then List.indexOf pred CATEGORY_CLASSES else 0
  (List.range CATEGORY_CLASSES.length).map (fun j => if j = idx then 1 else 0)

/-- State of `MLClassifier` from `ml_model.py`. -/
structure MLClassifier where
  model_type : String
  model : Option MLModel
  is_trained : Bool
  training_accuracy : ℚ

/-- Function `MLClassifier.predict` from `ml_model.py` lines 279-307: raises
unless a trained model is held; synthesizes one-hot probabilities when the
estimator has no `predict_proba`. -/
def MLClassifier.predict (clf : MLClassifier) (X : List (List (Option ℚ))) :
    Except String (List String × List (List ℚ)) :=
  match clf.is_trained, clf.model with
  | true, some m =>
    let predictions := m.predictFn X
    let probabilities :=
      match m.predictProbaFn with
      | some f => f X
      | none => predictions.map oneHot
    Except.ok (predictions, probabilities)
  | _, _ =>
    Except.error "Model not trained. Call train() first or load a trained model."

/-- State update of a successful `MLClassifier.train` (`ml_model.py`
lines 174-182): the sklearn fitting itself is abstracted as the resulting
fitted estimator and accuracy; the call stores the model and sets
`is_trained`. -/
def MLClassifier.train (clf : MLClassifier) (fitted : MLModel)
    (accuracy : ℚ) : MLClassifier :=
  { clf with model := some fitted, is_trained := true,
             training_accuracy := accuracy }

/-- Payload written by `MLClassifier.save_model` (`ml_model.py`
lines 365-370). -/
structure ModelSaveData where
  model : MLModel
  model_type : String
  accuracy : ℚ
  classes : List String

/-- Function `MLClassifier.save_model` from `ml_model.py` lines 352-373:
raises when untrained or no model is held. -/
def MLClassifier.save_model (clf : MLClassifier) : Except String ModelSaveData :=
  match clf.is_trained, clf.model with
  | true, some m =>
    Except.ok { model := m, model_type := clf.model_type,
                accuracy := clf.training_accuracy, classes := CATEGORY_CLASSES }
  | _, _ => Except.error "No trained model to save"

/-- Concrete unfitted preprocessor (fresh `DataPreprocessor()` with no scaler
artifact on disk). -/
def preUnfitted : DataPreprocessor := { is_fitted := false, scaler := id }

/-- Concrete fitted preprocessor whose scaler is the identity transform. -/
def preFittedId : DataPreprocessor := { is_fitted := true, scaler := id }

/-- Concrete scaler environment whose fit yields the identity transform. -/
def envId : ScalerEnv := { fitScaler := fun _ => id }

/-- Concrete untrained classifier (fresh `MLClassifier()` with no model
artifact on disk). -/
def clfUntrained : MLClassifier :=
  { model_type := "random_forest", model := none, is_trained := false,
    training_accuracy := 0 }

/-- Concrete estimator that predicts the first class for every row and has no
`predict_proba`. -/
def mlModelConst : MLModel :=
  { predictFn := fun X => X.map (fun _ => ProductivityCategory.FAKE_PRODUCTIVITY),
    predictProbaFn := none }

/-- Concrete two-column DataFrame with a missing cell in a feature column and
a non-feature column. -/
def dfEx : DataFrame :=
  [("task_hours", [some 1, none]), ("user", [some 7, some 8])]

theorem roundHalfEven_ge_floor (x : ℚ) : ⌊x⌋ ≤ roundHalfEven x := by
  unfold roundHalfEven
  split_ifs <;> omega

theorem roundHalfEven_le_floor_add_one (x : ℚ) : roundHalfEven x ≤ ⌊x⌋ + 1 := by
  unfold roundHalfEven
  split_ifs <;> omega

theorem roundHalfEven_mono {x y : ℚ} (h : x ≤ y) :
    roundHalfEven x ≤ roundHalfEven y := by
  rcases lt_or_le ⌊x⌋ ⌊y⌋ with hf | hf
  · calc roundHalfEven x ≤ ⌊x⌋ + 1 := roundHalfEven_le_floor_add_one x
      _ ≤ ⌊y⌋ := by omega
      _ ≤ roundHalfEven y := roundHalfEven_ge_floor y
  · have hfe : ⌊x⌋ = ⌊y⌋ := le_antisymm (Int.floor_le_floor h) hf
    unfold roundHalfEven
    rw [hfe]
    split_ifs <;> first | omega | linarith

theorem roundHalfEven_intCast (n : ℤ) : roundHalfEven (n : ℚ) = n := by
  unfold roundHalfEven
  rw [Int.floor_intCast]
  norm_num

theorem round2_mono {x y : ℚ} (h : x ≤ y) : round2 x ≤ round2 y := by
  unfold round2
  have h1 : roundHalfEven (x * 100) ≤ roundHalfEven (y * 100) :=
    roundHalfEven_mono (by linarith)
  have h2 : ((roundHalfEven (x * 100) : ℚ)) ≤ (roundHalfEven (y * 100) : ℚ) := by
    exact_mod_cast h1
  exact (div_le_div_iff_of_pos_right (by norm_num)).mpr h2

theorem normalize_score_mono {x y : ℚ} (h : x ≤ y) :
    normalize_score x ≤ normalize_score y :=
  max_le_max le_rfl (min_le_min le_rfl h)

theorem normalize_score_nonneg (x : ℚ) : 0 ≤ normalize_score x :=
  le_max_left _ _

theorem normalize_score_le_hundred (x : ℚ) : normalize_score x ≤ 100 :=
  max_le (by norm_num [ScoringConfig.MIN_SCORE]) (by
    simp [ScoringConfig.MAX_SCORE, min_le_left])

theorem normalize_score_eq {x : ℚ} (h1 : 0 ≤ x) (h2 : x ≤ 100) :
    normalize_score x = x := by
  unfold normalize_score ScoringConfig.MIN_SCORE ScoringConfig.MAX_SCORE
  rw [min_eq_right h2, max_eq_right h1]

theorem normalize_score_eq_zero {x : ℚ} (h : x ≤ 0) : normalize_score x = 0 := by
  unfold normalize_score ScoringConfig.MIN_SCORE ScoringConfig.MAX_SCORE
  rw [min_eq_right (h.trans (by norm_num)), max_eq_left h]

theorem round2_eq_of_mul_eq_intCast {x : ℚ} {m : ℤ} (h : x * 100 = (m : ℚ)) :
    round2 x = (m : ℚ) / 100 := by
  unfold round2
  rw [h, roundHalfEven_intCast]

theorem round2_zero : round2 0 = 0 := by
  rw [round2_eq_of_mul_eq_intCast (m := 0) (by norm_num)]
  norm_num

theorem round2_hundred : round2 100 = 100 := by
  rw [round2_eq_of_mul_eq_intCast (m := 10000) (by norm_num)]
  norm_num

theorem round2_eq_of_lt_half {x : ℚ} {f : ℤ} (hf : ⌊x * 100⌋ = f)
    (h : x * 100 - (f : ℚ) < 1/2) : round2 x = (f : ℚ) / 100 := by
  unfold round2 roundHalfEven
  rw [hf, if_pos h]

theorem round2_eq_of_half_lt {x : ℚ} {f : ℤ} (hf : ⌊x * 100⌋ = f)
    (h : 1/2 < x * 100 - (f : ℚ)) : round2 x = ((f : ℚ) + 1) / 100 := by
  unfold round2 roundHalfEven
  rw [hf, if_neg (by linarith), if_pos h]
  push_cast
  ring_nf

theorem classify_category_high {x : ℚ} (h : 80 ≤ x) :
    classify_category x = ProductivityCategory.HIGHLY_PRODUCTIVE := by
  unfold classify_category ScoringConfig.HIGHLY_PRODUCTIVE_MIN
  rw [if_pos h]

theorem classify_category_mid {x : ℚ} (h1 : x < 80) (h2 : 50 ≤ x) :
    classify_category x = ProductivityCategory.MODERATELY_PRODUCTIVE := by
  unfold classify_category ScoringConfig.HIGHLY_PRODUCTIVE_MIN
    ScoringConfig.MODERATELY_PRODUCTIVE_MIN
  rw [if_neg (by exact not_le.mpr h1), if_pos h2]

theorem classify_category_low {x : ℚ} (h : x < 50) :
    classify_category x = ProductivityCategory.FAKE_PRODUCTIVITY := by
  unfold classify_category ScoringConfig.HIGHLY_PRODUCTIVE_MIN
    ScoringConfig.MODERATELY_PRODUCTIVE_MIN
  rw [if_neg (by exact not_le.mpr (h.trans (by norm_num))), if_neg (by exact not_le.mpr h)]

theorem classify_category_cases (x : ℚ) :
    classify_category x = ProductivityCategory.HIGHLY_PRODUCTIVE ∨
    classify_category x = ProductivityCategory.MODERATELY_PRODUCTIVE ∨
    classify_category x = ProductivityCategory.FAKE_PRODUCTIVITY := by
  unfold classify_category
  split_ifs <;> simp

theorem calculate_score_eval (t i s b c raw : ℚ)
    (h : t * ScoringConfig.TASK_WEIGHT + c * ScoringConfig.TASKS_COMPLETED_WEIGHT
       - i * ScoringConfig.IDLE_WEIGHT - s * ScoringConfig.SOCIAL_MEDIA_WEIGHT
       - b * ScoringConfig.BREAK_WEIGHT = raw) :
    (calculate_score t i s b c).score = round2 (normalize_score raw) ∧
    (calculate_score t i s b c).category = classify_category (normalize_score raw) ∧
    (calculate_score t i s b c).raw_score = round2 raw := by
  subst h
  exact ⟨rfl, rfl, rfl⟩

theorem calculate_score_score_le {t1 i1 s1 b1 c1 t2 i2 s2 b2 c2 : ℚ}
    (h : t1 * ScoringConfig.TASK_WEIGHT + c1 * ScoringConfig.TASKS_COMPLETED_WEIGHT
       - i1 * ScoringConfig.IDLE_WEIGHT - s1 * ScoringConfig.SOCIAL_MEDIA_WEIGHT
       - b1 * ScoringConfig.BREAK_WEIGHT
       ≤ t2 * ScoringConfig.TASK_WEIGHT + c2 * ScoringConfig.TASKS_COMPLETED_WEIGHT
       - i2 * ScoringConfig.IDLE_WEIGHT - s2 * ScoringConfig.SOCIAL_MEDIA_WEIGHT
       - b2 * ScoringConfig.BREAK_WEIGHT) :
    (calculate_score t1 i1 s1 b1 c1).score ≤ (calculate_score t2 i2 s2 b2 c2).score :=
  round2_mono (normalize_score_mono h)

/-- C1 (counterexample): at task_hours = 9.9995 (others 0) the raw score is
79.996; the returned score is rounded up to 80.0 while the returned category is
computed from the pre-rounding score, so the returned category ("Moderately
Productive") is not the band containing the returned score (80 is in the
"Highly Productive" band). -/
theorem calculate_score_band_mismatch :
    (calculate_score 9.9995 0 0 0 0).score = 80 ∧
    (calculate_score 9.9995 0 0 0 0).category =
      ProductivityCategory.MODERATELY_PRODUCTIVE ∧
    classify_category ((calculate_score 9.9995 0 0 0 0).score) =
      ProductivityCategory.HIGHLY_PRODUCTIVE := by
  have h := calculate_score_eval 9.9995 0 0 0 0 79.996 (by
    norm_num [ScoringConfig.TASK_WEIGHT, ScoringConfig.TASKS_COMPLETED_WEIGHT,
      ScoringConfig.IDLE_WEIGHT, ScoringConfig.SOCIAL_MEDIA_WEIGHT,
      ScoringConfig.BREAK_WEIGHT])
  have hn : normalize_score (79.996 : ℚ) = 79.996 := normalize_score_eq
    (by norm_num) (by norm_num)
  have hfl : ⌊(79.996 : ℚ) * 100⌋ = 7999 := by
    rw [Int.floor_eq_iff]
    constructor <;> norm_num
  have hr : round2 (79.996 : ℚ) = 80 := by
    rw [round2_eq_of_half_lt hfl (by norm_num)]
    norm_num
  have hscore : (calculate_score 9.9995 0 0 0 0).score = 80 := by
    rw [h.1, hn, hr]
  refine ⟨hscore, ?_, ?_⟩
  · rw [h.2.1, hn]
    exact classify_category_mid (by norm_num) (by norm_num)
  · rw [hscore]
    exact classify_category_high (by norm_num)

/-- C1 (amended): the returned score is the raw score clamped to [0,100] and
then rounded to two decimals, hence lies in [0,100]; the returned category is
the band containing the clamped score *before* rounding, with the stated
inclusive lower boundaries (80 → Highly Productive, 79.99 → Moderately
Productive, 50 → Moderately Productive, 49.99 → Fake Productivity). -/
theorem calculate_score_bounds_and_band (t i s b c : ℚ) :
    0 ≤ (calculate_score t i s b c).score ∧
    (calculate_score t i s b c).score ≤ 100 ∧
    (∃ n : ℚ, 0 ≤ n ∧ n ≤ 100 ∧
      (calculate_score t i s b c).score = round2 n ∧
      (calculate_score t i s b c).category = classify_category n) ∧
    classify_category 80 = ProductivityCategory.HIGHLY_PRODUCTIVE ∧
    classify_category 79.99 = ProductivityCategory.MODERATELY_PRODUCTIVE ∧
    classify_category 50 = ProductivityCategory.MODERATELY_PRODUCTIVE ∧
    classify_category 49.99 = ProductivityCategory.FAKE_PRODUCTIVITY := by
  have h := calculate_score_eval t i s b c
    (t * ScoringConfig.TASK_WEIGHT + c * ScoringConfig.TASKS_COMPLETED_WEIGHT
      - i * ScoringConfig.IDLE_WEIGHT - s * ScoringConfig.SOCIAL_MEDIA_WEIGHT
      - b * ScoringConfig.BREAK_WEIGHT) rfl
  refine ⟨?_, ?_, ⟨normalize_score (t * ScoringConfig.TASK_WEIGHT
      + c * ScoringConfig.TASKS_COMPLETED_WEIGHT - i * ScoringConfig.IDLE_WEIGHT
      - s * ScoringConfig.SOCIAL_MEDIA_WEIGHT - b * ScoringConfig.BREAK_WEIGHT),
      normalize_score_nonneg _, normalize_score_le_hundred _, h.1, h.2.1⟩,
    classify_category_high (by norm_num),
    classify_category_mid (by norm_num) (by norm_num),
    classify_category_mid (by norm_num) (by norm_num),
    classify_category_low (by norm_num)⟩
  · rw [h.1, ← round2_zero]
    exact round2_mono (normalize_score_nonneg _)
  · rw [h.1, ← round2_hundred]
    exact round2_mono (normalize_score_le_hundred _)

/-- C2: `calculate_score` computes the raw score with the `ScoringConfig`
weights, clamps it to [0,100] for the score, rounds both to two decimals, and
yields the two documented example results. -/
theorem calculate_score_formula_and_examples (t i s b c : ℚ) :
    (calculate_score t i s b c).raw_score =
      round2 (t * ScoringConfig.TASK_WEIGHT + c * ScoringConfig.TASKS_COMPLETED_WEIGHT
        - i * ScoringConfig.IDLE_WEIGHT - s * ScoringConfig.SOCIAL_MEDIA_WEIGHT
        - b * ScoringConfig.BREAK_WEIGHT) ∧
    (calculate_score t i s b c).score =
      round2 (max ScoringConfig.MIN_SCORE (min ScoringConfig.MAX_SCORE
        (t * ScoringConfig.TASK_WEIGHT + c * ScoringConfig.TASKS_COMPLETED_WEIGHT
         - i * ScoringConfig.IDLE_WEIGHT - s * ScoringConfig.SOCIAL_MEDIA_WEIGHT
         - b * ScoringConfig.BREAK_WEIGHT))) ∧
    (calculate_score 6.5 1.5 2 5 8).raw_score = 59 ∧
    (calculate_score 6.5 1.5 2 5 8).score = 59 ∧
    (calculate_score 6.5 1.5 2 5 8).category =
      ProductivityCategory.MODERATELY_PRODUCTIVE ∧
    (calculate_score 0 8 6 12 0).raw_score = -114 ∧
    (calculate_score 0 8 6 12 0).score = 0 ∧
    (calculate_score 0 8 6 12 0).category =
      ProductivityCategory.FAKE_PRODUCTIVITY := by
  have h1 := calculate_score_eval 6.5 1.5 2 5 8 59 (by
    norm_num [ScoringConfig.TASK_WEIGHT, ScoringConfig.TASKS_COMPLETED_WEIGHT,
      ScoringConfig.IDLE_WEIGHT, ScoringConfig.SOCIAL_MEDIA_WEIGHT,
      ScoringConfig.BREAK_WEIGHT])
  have h2 := calculate_score_eval 0 8 6 12 0 (-114) (by
    norm_num [ScoringConfig.TASK_WEIGHT, ScoringConfig.TASKS_COMPLETED_WEIGHT,
      ScoringConfig.IDLE_WEIGHT, ScoringConfig.SOCIAL_MEDIA_WEIGHT,
      ScoringConfig.BREAK_WEIGHT])
  have hn1 : normalize_score (59 : ℚ) = 59 := normalize_score_eq (by norm_num) (by norm_num)
  have hn2 : normalize_score (-114 : ℚ) = 0 := normalize_score_eq_zero (by norm_num)
  have hr59 : round2 (59 : ℚ) = 59 := by
    rw [round2_eq_of_mul_eq_intCast (m := 5900) (by norm_num)]
    norm_num
  have hr114 : round2 (-114 : ℚ) = -114 := by
    rw [round2_eq_of_mul_eq_intCast (m := -11400) (by norm_num)]
    norm_num
  refine ⟨rfl, rfl, ?_, ?_, ?_, ?_, ?_, ?_⟩
  · rw [h1.2.2, hr59]
  · rw [h1.1, hn1, hr59]
  · rw [h1.2.1, hn1]
    exact classify_category_mid (by norm_num) (by norm_num)
  · rw [h2.2.2, hr114]
  · rw [h2.1, hn2, round2_zero]
  · rw [h2.2.1, hn2]
    exact classify_category_low (by norm_num)

/-- C3: the returned score is monotonically non-decreasing in task_hours and
tasks_completed, and non-increasing in idle_hours, social_media_usage and
break_frequency, all other inputs held fixed. -/
theorem calculate_score_monotone (t t' i i' s s' b b' c c' : ℚ)
    (ht : t ≤ t') (hi : i ≤ i') (hs : s ≤ s') (hb : b ≤ b') (hc : c ≤ c') :
    (calculate_score t i s b c).score ≤ (calculate_score t' i s b c).score ∧
    (calculate_score t i s b c).score ≤ (calculate_score t i s b c').score ∧
    (calculate_score t i' s b c).score ≤ (calculate_score t i s b c).score ∧
    (calculate_score t i s' b c).score ≤ (calculate_score t i s b c).score ∧
    (calculate_score t i s b' c).score ≤ (calculate_score t i s b c).score := by
  refine ⟨?_, ?_, ?_, ?_, ?_⟩ <;>
    apply calculate_score_score_le <;>
    simp only [ScoringConfig.TASK_WEIGHT, ScoringConfig.TASKS_COMPLETED_WEIGHT,
      ScoringConfig.IDLE_WEIGHT, ScoringConfig.SOCIAL_MEDIA_WEIGHT,
      ScoringConfig.BREAK_WEIGHT] <;>
    linarith

/-- C3 witness: a concrete instantiation of the monotonicity theorem. -/
theorem calculate_score_monotone_witness :
    ((0:ℚ) ≤ 1) ∧
    ((calculate_score 0 0 0 0 0).score ≤ (calculate_score 1 0 0 0 0).score ∧
     (calculate_score 0 0 0 0 0).score ≤ (calculate_score 0 0 0 0 1).score ∧
     (calculate_score 0 1 0 0 0).score ≤ (calculate_score 0 0 0 0 0).score ∧
     (calculate_score 0 0 1 0 0).score ≤ (calculate_score 0 0 0 0 0).score ∧
     (calculate_score 0 0 0 1 0).score ≤ (calculate_score 0 0 0 0 0).score) :=
  ⟨by norm_num,
   calculate_score_monotone 0 1 0 1 0 1 0 1 0 1 (by norm_num) (by norm_num)
     (by norm_num) (by norm_num) (by norm_num)⟩

/-- C9: `calculate_score` is total: it returns a `ScoringResult` for every
finite numeric input, whose category is always one of the three labels. -/
theorem calculate_score_total (t i s b c : ℚ) :
    ∃ r : ScoringResult, calculate_score t i s b c = r ∧
      (r.category = ProductivityCategory.HIGHLY_PRODUCTIVE ∨
       r.category = ProductivityCategory.MODERATELY_PRODUCTIVE ∨
       r.category = ProductivityCategory.FAKE_PRODUCTIVITY) := by
  refine ⟨calculate_score t i s b c, rfl, ?_⟩
  have h := calculate_score_eval t i s b c
    (t * ScoringConfig.TASK_WEIGHT + c * ScoringConfig.TASKS_COMPLETED_WEIGHT
      - i * ScoringConfig.IDLE_WEIGHT - s * ScoringConfig.SOCIAL_MEDIA_WEIGHT
      - b * ScoringConfig.BREAK_WEIGHT) rfl
  rw [h.2.1]
  exact classify_category_cases _

theorem dedupAux_sublist : ∀ (l : List (ℤ × String × String)) (seen : List String),
    List.Sublist (dedupAux l seen) l
  | [], _ => by simp [dedupAux]
  | x :: rest, seen => by
    simp only [dedupAux]
    split_ifs
    · exact (dedupAux_sublist rest _).cons₂ x
    · exact (dedupAux_sublist rest seen).cons x

theorem dedupAux_no_cat_of_seen (cat : String) (hcat : cat ≠ "positive") :
    ∀ (l : List (ℤ × String × String)) (seen : List String), cat ∈ seen →
    (dedupAux l seen).filter (fun x => x.2.1 == cat) = []
  | [], _, _ => by simp [dedupAux]
  | x :: rest, seen, hseen => by
    by_cases hkeep : x.2.1 ∉ seen ∨ x.2.1 = "positive"
    · have hxc : x.2.1 ≠ cat := by
        intro h
        rcases hkeep with hk | hk
        · exact hk (h ▸ hseen)
        · exact hcat (h ▸ hk)
      simp only [dedupAux, if_pos hkeep, List.filter_cons]
      rw [if_neg (by simp [hxc])]
      exact dedupAux_no_cat_of_seen cat hcat rest (x.2.1 :: seen)
        (List.mem_cons_of_mem _ hseen)
    · simp only [dedupAux, if_neg hkeep]
      exact dedupAux_no_cat_of_seen cat hcat rest seen hseen

theorem dedupAux_filter_cat_le_one (cat : String) (hcat : cat ≠ "positive") :
    ∀ (l : List (ℤ × String × String)) (seen : List String),
    ((dedupAux l seen).filter (fun x => x.2.1 == cat)).length ≤ 1
  | [], _ => by simp [dedupAux]
  | x :: rest, seen => by
    by_cases hkeep : x.2.1 ∉ seen ∨ x.2.1 = "positive"
    · simp only [dedupAux, if_pos hkeep, List.filter_cons]
      by_cases hxc : x.2.1 = cat
      · rw [if_pos (by simp [hxc])]
        rw [dedupAux_no_cat_of_seen cat hcat rest (x.2.1 :: seen)
          (by rw [hxc]; exact List.mem_cons_self _ _)]
        simp
      · rw [if_neg (by simp [hxc])]
        exact dedupAux_filter_cat_le_one cat hcat rest (x.2.1 :: seen)
    · simp only [dedupAux, if_neg hkeep]
      exact dedupAux_filter_cat_le_one cat hcat rest seen

theorem insertionSort_filter_key (l : List (ℤ × String × String)) (p : ℤ) :
    (List.insertionSort prioLE l).filter (fun x => x.1 == p) =
      l.filter (fun x => x.1 == p) := by
  have hmemkey : ∀ x ∈ l.filter (fun x => x.1 == p), x.1 = p := by
    intro x hx
    have h2 := (List.mem_filter.mp hx).2
    simpa using h2
  have hpw : (l.filter (fun x => x.1 == p)).Pairwise prioLE := by
    apply List.pairwise_of_forall_mem_list
    intro a ha b hb
    unfold prioLE
    rw [hmemkey a ha, hmemkey b hb]
  have hsub : List.Sublist (l.filter (fun x => x.1 == p))
      (List.insertionSort prioLE l) :=
    List.sublist_insertionSort hpw (List.filter_sublist l)
  have hsub2 : List.Sublist (l.filter (fun x => x.1 == p))
      ((List.insertionSort prioLE l).filter (fun x => x.1 == p)) := by
    have h2 := hsub.filter (fun x => x.1 == p)
    have hc : (l.filter (fun x => x.1 == p)).filter (fun x => x.1 == p) =
        l.filter (fun x => x.1 == p) :=
      List.filter_eq_self.mpr (fun a ha => (List.mem_filter.mp ha).2)
    rwa [hc] at h2
  have hlen : ((List.insertionSort prioLE l).filter (fun x => x.1 == p)).length =
      (l.filter (fun x => x.1 == p)).length :=
    ((List.perm_insertionSort prioLE l).filter _).length_eq
  exact (hsub2.eq_of_length hlen.symm).symm

/-- C4: `generate_suggestions` is deterministic (a pure function of its
inputs); its result never exceeds `max_suggestions` entries; after category
deduplication at most one suggestion per non-"positive" category remains; the
deduplicated list is sorted ascending by rule priority; and the stable sort
preserves rule-declaration order within each equal-priority class. -/
theorem generate_suggestions_spec (t i s b c sc : ℚ) (m : ℕ) :
    generate_suggestions t i s b c sc m = generate_suggestions t i s b c sc m ∧
    (generate_suggestions t i s b c sc m).length ≤ m ∧
    (∀ cat : String, cat ≠ "positive" →
      ((dedupAux (sorted_triggered t i s b c sc) []).filter
        (fun x => x.2.1 == cat)).length ≤ 1) ∧
    List.Sorted prioLE (dedupAux (sorted_triggered t i s b c sc) []) ∧
    (∀ p : ℤ, (sorted_triggered t i s b c sc).filter (fun x => x.1 == p)
      = (triggered_suggestions t i s b c sc).filter (fun x => x.1 == p)) := by
  refine ⟨rfl, ?_, ?_, ?_, ?_⟩
  · unfold generate_suggestions
    exact List.length_take_le _ _
  · intro cat hcat
    exact dedupAux_filter_cat_le_one cat hcat _ []
  · exact List.Pairwise.sublist (dedupAux_sublist _ [])
      (List.sorted_insertionSort prioLE _)
  · intro p
    exact insertionSort_filter_key _ p

/-- C4 witness: concrete instantiation (idle 3h, social 4h, 12 breaks, 1 task
done in 3h, score 85) of the per-category deduplication bound. -/
theorem generate_suggestions_spec_witness :
    ("focus" : String) ≠ "positive" ∧
    ((dedupAux (sorted_triggered 3 3 4 12 1 85) []).filter
      (fun x => x.2.1 == "focus")).length ≤ 1 :=
  ⟨by decide, (generate_suggestions_spec 3 3 4 12 1 85 5).2.2.1 "focus" (by decide)⟩

/-- C5 (counterexample): for task_hours = 0 and tasks_completed = 5 the code
computes efficiency_ratio = 0 (the `else` branch of the guard), while the
claimed formula `tasks_completed / max(task_hours, 1)` gives 5. -/
theorem efficiency_ratio_of_zero_hours :
    efficiency_ratio_of 0 5 = 0 ∧
    (5 : ℚ) / max (0 : ℚ) 1 = 5 ∧
    efficiency_ratio_of 0 5 ≠ (5 : ℚ) / max (0 : ℚ) 1 := by
  have h0 : efficiency_ratio_of 0 5 = 0 := by
    unfold efficiency_ratio_of
    rw [if_neg (by norm_num)]
  have h5 : (5 : ℚ) / max (0 : ℚ) 1 = 5 := by
    rw [max_eq_right (by norm_num : (0:ℚ) ≤ 1)]
    norm_num
  exact ⟨h0, h5, by rw [h0, h5]; norm_num⟩

/-- C5 (amended): the derived efficiency ratio used for rule evaluation equals
`tasks_completed / max(task_hours, 1)` only when task_hours > 0 (so a
task_hours in (0,1] is treated as a divisor of 1); when task_hours ≤ 0 the
guard short-circuits to 0 instead.  `generate_suggestions` evaluates its rules
against exactly this value. -/
theorem efficiency_ratio_of_eq (t i s b c sc : ℚ) :
    (0 < t → efficiency_ratio_of t c = c / max t 1) ∧
    (t ≤ 0 → efficiency_ratio_of t c = 0) ∧
    triggered_suggestions t i s b c sc =
      (create_rules.filter (fun rule => check_rule rule
        (metricsMap t i s b c ( efficiency_ratio_of t c) sc))).map
        (fun rule => (rule.priority, rule.category, rule.suggestion)) := by
  refine ⟨?_, ?_, rfl⟩
  · intro h
    unfold efficiency_ratio_of
    rw [if_pos h]
  · intro h
    unfold efficiency_ratio_of
    rw [if_neg (not_lt.mpr h)]

/-- C5 witness: at task_hours = 2, tasks_completed = 5 the positive branch
applies and the ratio is 5 / max 2 1 = 5/2. -/
theorem efficiency_ratio_of_eq_witness :
    (0 : ℚ) < 2 ∧ efficiency_ratio_of 2 5 = 5 / max (2 : ℚ) 1 :=
  ⟨by norm_num, (efficiency_ratio_of_eq 2 0 0 0 5 0).1 (by norm_num)⟩

theorem find?_pred_congr {α : Type} {p q : α → Bool} (l : List α)
    (h : ∀ a, p a = q a) : l.find? p = l.find? q := by
  induction l with
  | nil => rfl
  | cons x xs ih =>
    rw [List.find?_cons, List.find?_cons, h x, ih]

theorem map_getD_eq_self {vals : List (Option ℚ)}
    (h : vals.any (fun v => v.isNone) = false) :
    vals.map (fun v => some (v.getD 0)) = vals := by
  induction vals with
  | nil => rfl
  | cons x xs ih =>
    cases x <;> simp_all

/-- C6: every configuration/usage error raises: `predict` errors whenever
`is_trained` is false and returns a value after a successful `train`;
`save_model` errors whenever untrained or no model is held; `fit_transform`
with `fit=False` errors whenever the scaler is unfitted; and `fit_transform`
errors whenever a canonical feature column is absent. -/
theorem usage_errors_raise (clf : MLClassifier) (X : List (List (Option ℚ)))
    (fitted : MLModel) (acc : ℚ) (env : ScalerEnv) (pre : DataPreprocessor)
    (df : DataFrame) :
    (clf.is_trained = false → ∃ e, clf.predict X = Except.error e) ∧
    (∃ out, (clf.train fitted acc).predict X = Except.ok out) ∧
    ((clf.is_trained = false ∨ clf.model = none) →
      ∃ e, clf.save_model = Except.error e) ∧
    (pre.is_fitted = false →
      ∃ e, fit_transform env pre df false = Except.error e) ∧
    ((∃ col ∈ FEATURE_COLUMNS, col ∉ colNames df) →
      ∀ fit : Bool, ∃ e, fit_transform env pre df fit = Except.error e) := by
  refine ⟨?_, ?_, ?_, ?_, ?_⟩
  · intro h
    refine ⟨"Model not trained. Call train() first or load a trained model.", ?_⟩
    cases hm : clf.model <;> simp [MLClassifier.predict, h, hm]
  · exact ⟨_, rfl⟩
  · intro h
    refine ⟨"No trained model to save", ?_⟩
    rcases h with h | h
    · cases hm : clf.model <;> simp [MLClassifier.save_model, h, hm]
    · cases ht : clf.is_trained <;> simp [MLClassifier.save_model, h, ht]
  · intro h
    cases hf : FEATURE_COLUMNS.find? (fun col => !(colNames df).contains col) with
    | some col =>
      refine ⟨"Missing required column: " ++ col, ?_⟩
      unfold fit_transform
      rw [hf]
    | none =>
      refine ⟨"Scaler not fitted. Call fit_transform first with fit=True", ?_⟩
      unfold fit_transform
      rw [hf, h]
      rfl
  · intro h fit
    have hsome : (FEATURE_COLUMNS.find?
        (fun col => !(colNames df).contains col)).isSome := by
      apply List.find?_isSome.mpr
      obtain ⟨col, h1, h2⟩ := h
      refine ⟨col, h1, ?_⟩
      simp [h2]
    rcases Option.isSome_iff_exists.mp hsome with ⟨col, hcol⟩
    refine ⟨"Missing required column: " ++ col, ?_⟩
    unfold fit_transform
    rw [hcol]

/-- C6 witness: concrete untrained classifier and unfitted preprocessor hit
every error branch; after a successful train, predict returns a value. -/
theorem usage_errors_raise_witness :
    clfUntrained.is_trained = false ∧
    (∃ e, clfUntrained.predict [] = Except.error e) ∧
    (∃ out, (clfUntrained.train mlModelConst 0).predict [] = Except.ok out) ∧
    (∃ e, clfUntrained.save_model = Except.error e) ∧
    preUnfitted.is_fitted = false ∧
    (∃ e, fit_transform envId preUnfitted [] false = Except.error e) ∧
    (∃ col ∈ FEATURE_COLUMNS, col ∉ colNames ([] : DataFrame)) ∧
    (∃ e, fit_transform envId preUnfitted [] true = Except.error e) := by
  have h := usage_errors_raise clfUntrained [] mlModelConst 0 envId preUnfitted []
  refine ⟨rfl, h.1 rfl, h.2.1, h.2.2.1 (Or.inl rfl), rfl, h.2.2.2.1 rfl, ?_, ?_⟩
  · exact ⟨"task_hours", by decide, by decide⟩
  · exact h.2.2.2.2 ⟨"task_hours", by decide, by decide⟩ true

/-- C7: `prepare_single_input` is total (never raises): it builds the one-row
feature vector in canonical order with each value clipped to its declared
range, applies the scaler only when fitted, and otherwise returns the raw
clipped values; e.g. a task_hours of 30 is clipped to 24. -/
theorem prepare_single_input_spec (pre : DataPreprocessor) (t i s b c : ℚ) :
    (pre.is_fitted = false →
      prepare_single_input pre t i s b c =
        [[some (clipq 0 24 t), some (clipq 0 24 i), some (clipq 0 24 s),
          some (clipq 0 50 b), some (clipq 0 100 c)]]) ∧
    (pre.is_fitted = true →
      prepare_single_input pre t i s b c =
        [pre.scaler [some (clipq 0 24 t), some (clipq 0 24 i), some (clipq 0 24 s),
          some (clipq 0 50 b), some (clipq 0 100 c)]]) ∧
    clipq 0 24 30 = 24 := by
  refine ⟨?_, ?_, ?_⟩
  · intro h
    unfold prepare_single_input
    rw [h]
    rfl
  · intro h
    unfold prepare_single_input
    rw [h]
    rfl
  · unfold clipq
    rw [min_eq_left (by norm_num), max_eq_right (by norm_num)]

/-- C7 witness: both scaler states at concrete inputs; the unfitted case shows
task_hours 30 leaving as 24. -/
theorem prepare_single_input_spec_witness :
    preUnfitted.is_fitted = false ∧
    prepare_single_input preUnfitted 30 0 0 0 0 =
      [[some (clipq 0 24 30), some (clipq 0 24 0), some (clipq 0 24 0),
        some (clipq 0 50 0), some (clipq 0 100 0)]] ∧
    preFittedId.is_fitted = true ∧
    prepare_single_input preFittedId 2 3 4 5 6 =
      [preFittedId.scaler [some (clipq 0 24 2), some (clipq 0 24 3),
        some (clipq 0 24 4), some (clipq 0 50 5), some (clipq 0 100 6)]] :=
  ⟨rfl, (prepare_single_input_spec preUnfitted 30 0 0 0 0).1 rfl,
   rfl, (prepare_single_input_spec preFittedId 2 3 4 5 6).2.1 rfl⟩

/-- C8 (counterexample): the normalized key "social" contains the substring
"social" but is not renamed to `social_media_usage` by `clean_data`: the
synonym resolution matches only exact names from the synonym table. -/
theorem clean_columns_no_substring_match :
    cleanColumnNames ["social"] = ["social"] ∧
    ("social" : String) ≠ "social_media_usage" := by
  constructor
  · rfl
  · decide

/-- C8 (amended): column resolution normalizes names and then, canonical by
canonical in table order, renames the first *exactly matching* listed synonym
onto the canonical name, only when the canonical name is not already present;
keys that merely contain a substring such as "social" without being a listed
synonym are left unchanged (e.g. "Social Media" normalizes to the listed
synonym `social_media` and is renamed, while "social" is not). -/
theorem clean_columns_exact_synonym_resolution (cols : List String)
    (std : String) (vars : List String) :
    (cleanColumnNames cols =
      column_mapping.foldl (fun cs p => renameOnce cs p.1 p.2)
        (cols.map normalizeName)) ∧
    (std ∈ cols → renameOnce cols std vars = cols) ∧
    (std ∉ cols →
      renameOnce cols std vars =
        match vars.find? (fun v => cols.contains v) with
        | some v => cols.map (fun c => if c = v then std else c)
        | none => cols) ∧
    cleanColumnNames ["Social Media"] = ["social_media_usage"] := by
  refine ⟨rfl, ?_, ?_, rfl⟩
  · intro h
    unfold renameOnce
    have hn : vars.find? (fun var => cols.contains var && !cols.contains std)
        = none := by
      apply List.find?_eq_none.mpr
      intro v _
      simp [h]
    rw [hn]
  · intro h
    unfold renameOnce
    have hq : vars.find? (fun var => cols.contains var && !cols.contains std)
        = vars.find? (fun v => cols.contains v) :=
      find?_pred_congr vars (fun v => by simp [h])
    rw [hq]

/-- C8 witness: with the canonical name present nothing is renamed; with it
absent the first present synonym is renamed onto it. -/
theorem clean_columns_exact_synonym_resolution_witness :
    ("task_hours" ∈ (["task_hours", "extra"] : List String)) ∧
    renameOnce ["task_hours", "extra"] "task_hours"
      ["task_hours", "taskhours", "productive_hours"] = ["task_hours", "extra"] ∧
    ("task_hours" ∉ (["taskhours"] : List String)) ∧
    renameOnce ["taskhours"] "task_hours"
      ["task_hours", "taskhours", "productive_hours"] =
      (match (["task_hours", "taskhours", "productive_hours"] : List String).find?
          (fun v => (["taskhours"] : List String).contains v) with
       | some v => (["taskhours"] : List String).map
          (fun c => if c = v then "task_hours" else c)
       | none => ["taskhours"]) :=
  ⟨by decide,
   (clean_columns_exact_synonym_resolution ["task_hours", "extra"] "task_hours"
     ["task_hours", "taskhours", "productive_hours"]).2.1 (by decide),
   by decide,
   (clean_columns_exact_synonym_resolution ["taskhours"] "task_hours"
     ["task_hours", "taskhours", "productive_hours"]).2.2.1 (by decide)⟩

/-- C10: `handle_missing_values` accepts any strategy string without raising;
any strategy other than exactly "mean" or "median" (e.g. the misspelling
"meddian") falls through to zero-fill: every missing feature value becomes 0
and non-feature columns are untouched. -/
theorem handle_missing_values_fallback (df : DataFrame) (strategy : String)
    (h1 : strategy ≠ "mean") (h2 : strategy ≠ "median") :
    handle_missing_values df strategy =
      df.map (fun col =>
        if col.1 ∈ FEATURE_COLUMNS then
          (col.1, col.2.map (fun v => some (v.getD 0)))
        else col) := by
  unfold handle_missing_values
  apply List.map_congr_left
  intro col _
  by_cases hf : col.1 ∈ FEATURE_COLUMNS
  · rw [if_pos hf, if_pos hf]
    by_cases hmiss : col.2.any (fun v => v.isNone) = true
    · rw [if_pos hmiss, if_neg h1, if_neg h2]
      rfl
    · rw [if_neg hmiss]
      rw [map_getD_eq_self (Bool.not_eq_true _ ▸ hmiss)]
  · rw [if_neg hf, if_neg hf]

/-- C10 witness: the misspelled strategy "meddian" zero-fills the missing
task_hours cell of the example frame and leaves the non-feature column
alone. -/
theorem handle_missing_values_fallback_witness :
    ("meddian" : String) ≠ "mean" ∧ ("meddian" : String) ≠ "median" ∧
    handle_missing_values dfEx "meddian" =
      dfEx.map (fun col =>
        if col.1 ∈ FEATURE_COLUMNS then
          (col.1, col.2.map (fun v => some (v.getD 0)))
        else col) :=
  ⟨by decide, by decide,
   handle_missing_values_fallback dfEx "meddian" (by decide) (by decide)⟩
